import Mathlib

/-!
Verification of the hermit_crab migration agent.

Shallow embedding of the Python sources:
  src/modules/github_sync.py   (GitHubSync.acquire_lock / release_lock)
  src/modules/monitor.py       (Monitor.get_remaining_days / should_migrate / get_status)
  src/modules/utils.py         (calculate_days_remaining, get_ssh_password)
  src/modules/scanner.py       (Scanner.select_target_server, update_server_status)
  src/modules/cloudflare_api.py (CloudFlareAPI.get/create/update_dns_record)
  src/modules/notification.py  (ResendNotifier)
  src/agent.py                 (HermitCrabAgent.cmd_update_lifecycle, cmd_migrate)

Registry state is passed explicitly; the remote push of github_sync is modelled
as writing the new registry state (push success), since the claims under
verification are about the registry transformation itself.  Fallible Python
code (exceptions) is modelled with Option / Except / an explicit outcome type.
-/

namespace HermitCrab

/-- A server record of nodes.json.  Python dicts are open maps; we model the
keys actually read or written by the code under verification, each optional
exactly as dict.get returns None for a missing key. -/
structure Server where
  id : Option String := none
  domain : Option String := none
  ip : Option String := none
  status : Option String := none
  lock_holder : Option String := none
  lock_time : Option String := none
  last_heartbeat : Option String := none
  deriving Repr, DecidableEq

/-- In-place mutation of the first list element satisfying p (the Python
loops mutate the found dict and break). -/
def updateFirst {α : Type} (p : α → Bool) (f : α → α) : List α → List α
  | [] => []
  | x :: xs => if p x then f x :: xs else x :: updateFirst p f xs

/-- github_sync.py lines 231-234 and 287-288: a server matches the requested
identifier when its id or its domain equals it. -/
def matchesId (server_id : String) (s : Server) : Bool :=
  s.id = some server_id || s.domain = some server_id

/-- GitHubSync.acquire_lock (github_sync.py lines 204-264), with the pulled
registry as input and the pushed registry as output.  Returns the new
registry and the success flag. -/
def acquire_lock (servers : List Server) (server_id lock_holder now : String) :
    List Server × Bool :=
  match servers.find? (matchesId server_id) with
  | none => (servers, false)
  | some target =>
    if target.status = some "transferring" then
      (servers, false)
    else
      (updateFirst (matchesId server_id)
        (fun s => { s with status := some "transferring",
                           lock_holder := some lock_holder,
                           lock_time := some now }) servers, true)

/-- GitHubSync.release_lock (github_sync.py lines 266-304): set the new
status and drop the lock_holder / lock_time keys of the first matching
server; no matching server means failure with the registry unchanged. -/
def release_lock (servers : List Server) (server_id new_status : String) :
    List Server × Bool :=
  match servers.find? (matchesId server_id) with
  | none => (servers, false)
  | some _ =>
    (updateFirst (matchesId server_id)
      (fun s => { s with status := some new_status,
                         lock_holder := none,
                         lock_time := none }) servers, true)

theorem find?_updateFirst {α : Type} (p : α → Bool) (f : α → α) (l : List α)
    (t : α) (hf : p (f t) = true) (h : l.find? p = some t) :
    (updateFirst p f l).find? p = some (f t) := by
  induction l with
  | nil => simp [List.find?] at h
  | cons x xs ih =>
    by_cases hx : p x
    · simp [List.find?, hx] at h
      subst h
      simp [updateFirst, hx, List.find?, hf]
    · simp [List.find?, hx] at h
      simpa [updateFirst, hx, List.find?] using ih h

/-- C1 counterexample: a registry holding exactly the record this system's
add command creates - keyed by its ip field, status idle, no id and no
domain key.  Locating the record by its IP (the claim's scenario) does find
it, yet acquire_lock fails and leaves the registry unchanged instead of
marking it transferring, and release_lock fails likewise: the lookup
matches only the id or domain fields, never ip. -/
theorem acquire_lock_ip_keyed_counterexample :
    ([{ ip := some "10.0.0.5", status := some "idle" }] : List Server).find?
        (fun s => s.ip = some "10.0.0.5") =
      some { ip := some "10.0.0.5", status := some "idle" } ∧
    acquire_lock [{ ip := some "10.0.0.5", status := some "idle" }]
        "10.0.0.5" "10.0.0.1" "2026-10-12T00:00:00Z" =
      ([{ ip := some "10.0.0.5", status := some "idle" }], false) ∧
    release_lock [{ ip := some "10.0.0.5", status := some "idle" }]
        "10.0.0.5" "idle" =
      ([{ ip := some "10.0.0.5", status := some "idle" }], false) := by
  refine ⟨by decide, by decide, by decide⟩

/-- C1 amended: acquire_lock and release_lock locate the target record by
its id or domain field, not by its ip.  On a registry whose record matching
the requested identifier in this way has status idle, acquire_lock marks it
transferring with the holder identity and the lock timestamp and succeeds;
when the matched record is already transferring, acquire_lock fails with
the registry unchanged; release_lock sets the requested status and removes
the lock_holder and lock_time fields, succeeding.  On a registry with no
record matching the identifier in id or domain - in particular one whose
records carry the identifier only in their ip field, the only kind this
system's add command creates - both operations fail and leave the registry
unchanged. -/
theorem acquire_release_lock_spec (servers : List Server)
    (server_id holder now new_status : String) (t : Server) :
    (servers.find? (matchesId server_id) = some t →
      (t.status = some "idle" →
        (acquire_lock servers server_id holder now).2 = true ∧
        ((acquire_lock servers server_id holder now).1.find? (matchesId server_id) =
          some { t with status := some "transferring",
                        lock_holder := some holder,
                        lock_time := some now })) ∧
      (t.status = some "transferring" →
        acquire_lock servers server_id holder now = (servers, false)) ∧
      ((release_lock servers server_id new_status).2 = true ∧
        (release_lock servers server_id new_status).1.find? (matchesId server_id) =
          some { t with status := some new_status,
                        lock_holder := none,
                        lock_time := none })) ∧
    ((∀ s ∈ servers, matchesId server_id s = false) →
      acquire_lock servers server_id holder now = (servers, false) ∧
      release_lock servers server_id new_status = (servers, false)) := by
  constructor
  · intro hfind
    have hmatch : matchesId server_id t = true := List.find?_some hfind
    refine ⟨?_, ?_, ?_, ?_⟩
    · intro hidle
      constructor
      · simp [acquire_lock, hfind, hidle]
      · simp only [acquire_lock, hfind, hidle]
        have : ¬ (some "idle" = some "transferring") := by simp
        rw [if_neg (by simp [hidle])]
        exact find?_updateFirst _ _ _ _ (by simpa [matchesId] using hmatch) hfind
    · intro htr
      simp [acquire_lock, hfind, htr]
    · simp [release_lock, hfind]
    · simp only [release_lock, hfind]
      exact find?_updateFirst _ _ _ _ (by simpa [matchesId] using hmatch) hfind
  · intro hnomatch
    have hnone : servers.find? (matchesId server_id) = none := by
      rw [List.find?_eq_none]
      intro s hs
      simp [hnomatch s hs]
    constructor
    · simp [acquire_lock, hnone]
    · simp [release_lock, hnone]

/-- C1 witness: an id-keyed record exercising the located branches, and the
ip-only record this system creates exercising the not-located branch. -/
theorem acquire_release_lock_spec_witness :
    (acquire_lock [{ id := some "10.0.0.5", status := some "idle" }]
        "10.0.0.5" "10.0.0.1" "2026-10-12T00:00:00Z").2 = true ∧
    (acquire_lock [{ id := some "10.0.0.5", status := some "idle" }]
        "10.0.0.5" "10.0.0.1" "2026-10-12T00:00:00Z").1.find?
        (matchesId "10.0.0.5") =
      some { id := some "10.0.0.5", status := some "transferring",
             lock_holder := some "10.0.0.1",
             lock_time := some "2026-10-12T00:00:00Z" } ∧
    acquire_lock [{ id := some "10.0.0.5", status := some "transferring" }]
        "10.0.0.5" "10.0.0.1" "2026-10-12T00:00:00Z" =
      ([{ id := some "10.0.0.5", status := some "transferring" }], false) ∧
    (release_lock [{ id := some "10.0.0.5", status := some "idle" }]
        "10.0.0.5" "idle").2 = true ∧
    acquire_lock [{ ip := some "10.0.0.7", status := some "idle" }]
        "10.0.0.7" "10.0.0.1" "2026-10-12T00:00:00Z" =
      ([{ ip := some "10.0.0.7", status := some "idle" }], false) := by
  have h1 := acquire_release_lock_spec
    [{ id := some "10.0.0.5", status := some "idle" }]
    "10.0.0.5" "10.0.0.1" "2026-10-12T00:00:00Z" "idle"
    { id := some "10.0.0.5", status := some "idle" }
  have h2 := acquire_release_lock_spec
    [{ id := some "10.0.0.5", status := some "transferring" }]
    "10.0.0.5" "10.0.0.1" "2026-10-12T00:00:00Z" "idle"
    { id := some "10.0.0.5", status := some "transferring" }
  have h3 := acquire_release_lock_spec
    [{ ip := some "10.0.0.7", status := some "idle" }]
    "10.0.0.7" "10.0.0.1" "2026-10-12T00:00:00Z" "idle"
    { ip := some "10.0.0.7", status := some "idle" }
  exact ⟨((h1.1 (by decide)).1 rfl).1, ((h1.1 (by decide)).1 rfl).2,
    (h2.1 (by decide)).2.1 rfl, (h1.1 (by decide)).2.2.1,
    (h3.2 (by decide)).1⟩

/-! Date arithmetic (utils.py calculate_days_remaining and the strict
strptime format of dates used everywhere). -/

/-- An instant, as Python datetime.now(): a calendar day (as a civil day
number, days since 1970-01-01) plus the elapsed seconds of that day. -/
structure Instant where
  day : Int
  sec : Int
  deriving Repr, DecidableEq

/-- Gregorian leap year, as Python datetime. -/
def isLeapYear (y : Int) : Bool :=
  (y % 4 = 0 && y % 100 ≠ 0) || y % 400 = 0

/-- Length of a month, as Python datetime. -/
def daysInMonth (y m : Int) : Int :=
  if m = 2 then (if isLeapYear y then 29 else 28)
  else if m = 4 || m = 6 || m = 9 || m = 11 then 30
  else 31

/-- Splitting a character list at every occurrence of a separator, the
semantics of Python str.split with a one-character separator. -/
def splitOnCharAux (c : Char) : List Char → List Char → List (List Char)
  | [], acc => [acc.reverse]
  | x :: xs, acc =>
    if x = c then acc.reverse :: splitOnCharAux c xs []
    else splitOnCharAux c xs (x :: acc)

/-- Python str.split with a one-character separator. -/
def splitOnChar (c : Char) (s : String) : List (List Char) :=
  splitOnCharAux c s.toList []

/-- Decimal value of a nonempty all-digit character string, none
otherwise. -/
def digitsToNat? (l : List Char) : Option Nat :=
  if !l.isEmpty && l.all Char.isDigit then
    some (l.foldl (fun a ch => a * 10 + (ch.toNat - 48)) 0)
  else none

/-- Python datetime.strptime with format Y-m-d: a 4-digit year, a dash, a
1-2 digit month in 1..12, a dash, a 1-2 digit day valid for that month, and
nothing else; the year must be at least 1 (datetime.MINYEAR).  Returns the
(year, month, day) triple, or none for any other string (ValueError). -/
def strptimeYmd (s : String) : Option (Int × Int × Int) :=
  match splitOnChar '-' s with
  | [ys, ms, ds] =>
    match digitsToNat? ys, digitsToNat? ms, digitsToNat? ds with
    | some y, some m, some d =>
      if ys.length = 4 && 1 ≤ y &&
         ms.length ≤ 2 && 1 ≤ m && m ≤ 12 &&
         ds.length ≤ 2 && 1 ≤ d && (d : Int) ≤ daysInMonth (y : Int) (m : Int)
      then some ((y : Int), (m : Int), (d : Int))
      else none
    | _, _, _ => none
  | _ => none

/-- Civil day number (days since 1970-01-01) of a Gregorian date; the
standard days-from-civil computation, the day-count datetime subtraction is
based on. -/
def toDayNumber (y m d : Int) : Int :=
  let y' := if m ≤ 2 then y - 1 else y
  let era := Int.fdiv y' 400
  let yoe := y' - era * 400
  let mp := Int.emod (m + 9) 12
  let doy := Int.fdiv (153 * mp + 2) 5 + d - 1
  let doe := yoe * 365 + Int.fdiv yoe 4 - Int.fdiv yoe 100 + doy
  era * 146097 + doe - 719468

/-- Failure mode of calculate_days_remaining: the ValueError raised in
utils.py line 305, carrying the offending date string. -/
inductive DateError where
  | invalidFormat (offending : String)
  deriving Repr, DecidableEq

/-- calculate_days_remaining (utils.py lines 286-305): parse added_date
strictly as Y-m-d (midnight), add total_days days to get the expiry
instant, subtract now, and take timedelta.days of the difference, which is
the floor of the difference in whole days. -/
def calculate_days_remaining (added_date : String) (total_days : Int)
    (now : Instant) : Except DateError Int :=
  match strptimeYmd added_date with
  | none => .error (.invalidFormat added_date)
  | some (y, m, d) =>
    let expireDay := toDayNumber y m d + total_days
    .ok (Int.fdiv ((expireDay - now.day) * 86400 - now.sec) 86400)

/-! Monitor (monitor.py).  The loaded lifecycle record is passed explicitly
(load_lifecycle reads the data file; absence or read failure gives none). -/

/-- The fields of the persisted lifecycle record read by the monitor
operations under verification; total_days is optional exactly as
lifecycle.get with the configured default. -/
structure Lifecycle where
  added_date : String
  total_days : Option Int := none
  deriving Repr, DecidableEq

/-- Monitor.get_remaining_days (monitor.py lines 85-101): -1 when the
record is absent; otherwise calculate_days_remaining on the record's
added_date and total_days (configured default when the key is missing),
with any exception caught and turned into -1. -/
def get_remaining_days (lifecycle : Option Lifecycle) (cfg_total_days : Int)
    (now : Instant) : Int :=
  match lifecycle with
  | none => -1
  | some lc =>
    match calculate_days_remaining lc.added_date (lc.total_days.getD cfg_total_days) now with
    | .ok d => d
    | .error _ => -1

/-- Monitor.should_migrate (monitor.py lines 103-123): a negative remaining
count (uninitialized or expired) logs an error and never migrates;
otherwise migrate exactly when remaining is strictly below the threshold. -/
def should_migrate (lifecycle : Option Lifecycle) (cfg_total_days threshold : Int)
    (now : Instant) : Bool :=
  let remaining := get_remaining_days lifecycle cfg_total_days now
  if remaining < 0 then false
  else remaining < threshold

/-- The status summary returned by Monitor.get_status, restricted to the
fields under verification. -/
structure StatusSummary where
  initialized : Bool
  remaining_days : Int
  should_migrate : Bool
  status : String
  deriving Repr, DecidableEq

/-- Monitor.get_status (monitor.py lines 151-197): the NOT_INITIALIZED
summary when no record exists; otherwise remaining days, the migrate
decision, and the status classification.  The display-only expiry date is
computed with an uncaught strptime of added_date (line 183), so an
unparseable stored date raises out of get_status: modelled as none. -/
def get_status (lifecycle : Option Lifecycle) (cfg_total_days threshold : Int)
    (now : Instant) : Option StatusSummary :=
  match lifecycle with
  | none => some { initialized := false, remaining_days := -1,
                   should_migrate := false, status := "NOT_INITIALIZED" }
  | some lc =>
    let remaining := get_remaining_days (some lc) cfg_total_days now
    let sm := should_migrate (some lc) cfg_total_days threshold now
    let status :=
      if remaining < 0 then "EXPIRED"
      else if sm then "CRITICAL"
      else if remaining < 10 then "WARNING"
      else "HEALTHY"
    match strptimeYmd lc.added_date with
    | none => none
    | some _ =>
      some { initialized := true, remaining_days := remaining,
             should_migrate := sm, status := status }

/-- C5 counterexample: with added_date equal to the calendar date of now
(today) and total_days 15, calling one hour after midnight returns 14, not
15: timedelta.days floors away the elapsed time of day. -/
theorem calculate_days_remaining_today_not_15 :
    calculate_days_remaining "2026-10-12" 15 ⟨toDayNumber 2026 10 12, 3600⟩ =
      .ok 14 ∧
    (Except.ok 14 : Except DateError Int) ≠ .ok 15 := by
  have hp : strptimeYmd "2026-10-12" = some (2026, 10, 12) := by decide
  constructor
  · simp only [calculate_days_remaining, hp]
    rfl
  · simp

/-- C5 amended: calculate_days_remaining computes the floor of
(addedDate + totalDays) minus now in whole days from a strictly parsed
Y-m-d date; for addedDate equal to the calendar date of now and totalDays
15 it returns 15 exactly at midnight and 14 at any later time of day; for
addedDate 20 days before the calendar date of now and totalDays 15 it
returns a negative value; and for the string not-a-date it fails with the
invalid-date-format error carrying the offending string. -/
theorem calculate_days_remaining_spec (s : String) (y m d total_days : Int)
    (now : Instant) (hparse : strptimeYmd s = some (y, m, d))
    (hsec0 : 0 ≤ now.sec) (hsec1 : now.sec < 86400) :
    calculate_days_remaining s total_days now =
      .ok (Int.fdiv ((toDayNumber y m d + total_days - now.day) * 86400 - now.sec) 86400) ∧
    (now.day = toDayNumber y m d → now.sec = 0 →
      calculate_days_remaining s 15 now = .ok 15) ∧
    (now.day = toDayNumber y m d → 0 < now.sec →
      calculate_days_remaining s 15 now = .ok 14) ∧
    (now.day = toDayNumber y m d + 20 →
      ∃ r, calculate_days_remaining s 15 now = .ok r ∧ r < 0) ∧
    calculate_days_remaining "not-a-date" total_days now =
      .error (.invalidFormat "not-a-date") := by
  have hediv : ∀ a : Int, Int.fdiv a 86400 = a / 86400 := by
    intro a
    exact Int.fdiv_eq_ediv a (by norm_num)
  refine ⟨?_, ?_, ?_, ?_, ?_⟩
  · simp [calculate_days_remaining, hparse]
  · intro hday hzero
    simp only [calculate_days_remaining, hparse, hday, hzero, hediv]
    congr 1
    omega
  · intro hday hpos
    simp only [calculate_days_remaining, hparse, hday, hediv]
    congr 1
    omega
  · intro hday
    have hval : calculate_days_remaining s 15 now =
        .ok (Int.fdiv ((toDayNumber y m d + 15 - now.day) * 86400 - now.sec) 86400) := by
      simp [calculate_days_remaining, hparse]
    refine ⟨_, hval, ?_⟩
    rw [hediv]
    omega
  · have hbad : strptimeYmd "not-a-date" = none := by decide
    simp [calculate_days_remaining, hbad]

/-- C5 witness: the theorem applied to the date 2026-10-12 at three
concrete instants of that day and 20 days later. -/
theorem calculate_days_remaining_spec_witness :
    calculate_days_remaining "2026-10-12" 7 ⟨20738, 3600⟩ =
      .ok (Int.fdiv ((toDayNumber 2026 10 12 + 7 - 20738) * 86400 - 3600) 86400) ∧
    calculate_days_remaining "2026-10-12" 15 ⟨20738, 0⟩ = .ok 15 ∧
    (∃ r, calculate_days_remaining "2026-10-12" 15 ⟨20758, 0⟩ = .ok r ∧ r < 0) ∧
    calculate_days_remaining "not-a-date" 7 ⟨20738, 3600⟩ =
      .error (.invalidFormat "not-a-date") := by
  have h1 := calculate_days_remaining_spec "2026-10-12" 2026 10 12 7
    ⟨20738, 3600⟩ (by decide) (by norm_num) (by norm_num)
  have h2 := calculate_days_remaining_spec "2026-10-12" 2026 10 12 7
    ⟨20738, 0⟩ (by decide) (by norm_num) (by norm_num)
  have h3 := calculate_days_remaining_spec "2026-10-12" 2026 10 12 7
    ⟨20758, 0⟩ (by decide) (by norm_num) (by norm_num)
  exact ⟨h1.1, h2.2.1 (by decide) rfl, h3.2.2.2.1 (by decide), h1.2.2.2.2⟩

/-- C4 counterexample: an initialized (persisted) record whose computed
remaining days is -1, below the threshold 5, yet should_migrate is false
(the code treats any negative remaining count as expired and refuses to
migrate), and get_status classifies it EXPIRED. -/
theorem should_migrate_expired_counterexample :
    get_remaining_days (some { added_date := "2026-10-12", total_days := some 10 })
        15 ⟨toDayNumber 2026 10 12 + 11, 0⟩ = -1 ∧
    (-1 : Int) < 5 ∧
    should_migrate (some { added_date := "2026-10-12", total_days := some 10 })
        15 5 ⟨toDayNumber 2026 10 12 + 11, 0⟩ = false ∧
    get_status (some { added_date := "2026-10-12", total_days := some 10 })
        15 5 ⟨toDayNumber 2026 10 12 + 11, 0⟩ =
      some { initialized := true, remaining_days := -1,
             should_migrate := false, status := "EXPIRED" } := by
  refine ⟨by decide, by norm_num, by decide, by decide⟩

/-- C4 amended: for a persisted record the should-migrate decision is true
iff the computed remaining days is nonnegative and strictly below the
threshold (a negative remaining count, expired, never migrates and logs an
error, exactly as an uninitialized record does); with threshold 5, a node
with 4 remaining days reports should_migrate true and CRITICAL, one with 6
remaining days reports should_migrate false and WARNING, and one with 20
remaining days reports HEALTHY. -/
theorem should_migrate_spec (lc : Lifecycle) (cfg_total_days threshold : Int)
    (now : Instant) :
    (should_migrate (some lc) cfg_total_days threshold now = true ↔
      0 ≤ get_remaining_days (some lc) cfg_total_days now ∧
      get_remaining_days (some lc) cfg_total_days now < threshold) ∧
    should_migrate none cfg_total_days threshold now = false ∧
    get_status (some { added_date := "2026-10-12", total_days := some 15 })
        15 5 ⟨toDayNumber 2026 10 12 + 11, 0⟩ =
      some { initialized := true, remaining_days := 4,
             should_migrate := true, status := "CRITICAL" } ∧
    get_status (some { added_date := "2026-10-12", total_days := some 15 })
        15 5 ⟨toDayNumber 2026 10 12 + 9, 0⟩ =
      some { initialized := true, remaining_days := 6,
             should_migrate := false, status := "WARNING" } ∧
    get_status (some { added_date := "2026-10-12", total_days := some 20 })
        15 5 ⟨toDayNumber 2026 10 12, 0⟩ =
      some { initialized := true, remaining_days := 20,
             should_migrate := false, status := "HEALTHY" } := by
  refine ⟨?_, by simp [should_migrate, get_remaining_days], by decide, by decide, by decide⟩
  simp only [should_migrate]
  split
  · simp only [Bool.false_eq_true, false_iff]
    omega
  · simp only [decide_eq_true_eq]
    omega

/-! Scanner target selection (scanner.py lines 121-177).  The available
candidate list is the input (get_available_servers attaches remaining_days
to each in-memory record before selection runs). -/

/-- An available candidate as seen by select_target_server: a server record
with its attached remaining_days. -/
structure Candidate where
  ip : String
  remaining_days : Int
  deriving Repr, DecidableEq

/-- Python max with the remaining_days key over a nonempty list: the first
element of maximal key. -/
def maxByRemaining : List Candidate → Option Candidate
  | [] => none
  | x :: xs =>
    some (xs.foldl (fun acc y =>
      if y.remaining_days > acc.remaining_days then y else acc) x)

/-- Scanner.select_target_server (scanner.py lines 121-177): empty
candidate list means no target; otherwise prefer the maximum among
candidates strictly above the threshold; otherwise the maximum among
candidates strictly above current remaining plus the minimum gain;
otherwise no target. -/
def select_target_server (available : List Candidate)
    (threshold min_gain current_remaining_days : Int) : Option Candidate :=
  match available with
  | [] => none
  | _ =>
    let candidates_high := available.filter
      (fun s => s.remaining_days > threshold)
    match maxByRemaining candidates_high with
    | some target => some target
    | none =>
      let candidates_low := available.filter
        (fun s => s.remaining_days > current_remaining_days + min_gain)
      maxByRemaining candidates_low

theorem foldlMax_mem (xs : List Candidate) (x : Candidate) :
    (xs.foldl (fun acc y =>
      if y.remaining_days > acc.remaining_days then y else acc) x) = x ∨
    (xs.foldl (fun acc y =>
      if y.remaining_days > acc.remaining_days then y else acc) x) ∈ xs := by
  induction xs generalizing x with
  | nil => exact Or.inl rfl
  | cons y ys ih =>
    simp only [List.foldl, List.mem_cons]
    rcases ih (if y.remaining_days > x.remaining_days then y else x) with hm | hm
    · rw [hm]
      split
      · exact Or.inr (Or.inl rfl)
      · exact Or.inl rfl
    · exact Or.inr (Or.inr hm)

theorem foldlMax_acc_le (xs : List Candidate) (x : Candidate) :
    x.remaining_days ≤ (xs.foldl (fun acc y =>
      if y.remaining_days > acc.remaining_days then y else acc) x).remaining_days := by
  induction xs generalizing x with
  | nil => exact le_refl _
  | cons y ys ih =>
    simp only [List.foldl]
    refine le_trans ?_ (ih (if y.remaining_days > x.remaining_days then y else x))
    split <;> omega

theorem foldlMax_mem_le (xs : List Candidate) (x s : Candidate) (hs : s ∈ xs) :
    s.remaining_days ≤ (xs.foldl (fun acc y =>
      if y.remaining_days > acc.remaining_days then y else acc) x).remaining_days := by
  induction xs generalizing x with
  | nil => simp at hs
  | cons y ys ih =>
    simp only [List.foldl]
    rcases List.mem_cons.mp hs with hsy | hsm
    · refine le_trans ?_ (foldlMax_acc_le ys (if y.remaining_days > x.remaining_days then y else x))
      rw [hsy]
      split <;> omega
    · exact ih _ hsm

theorem maxByRemaining_mem (l : List Candidate) (t : Candidate)
    (h : maxByRemaining l = some t) : t ∈ l := by
  match l with
  | [] => simp [maxByRemaining] at h
  | x :: xs =>
    simp only [maxByRemaining, Option.some.injEq] at h
    subst h
    rcases foldlMax_mem xs x with hm | hm
    · rw [hm]
      exact List.mem_cons_self _ _
    · exact List.mem_cons_of_mem _ hm

theorem maxByRemaining_ge (l : List Candidate) (t : Candidate)
    (h : maxByRemaining l = some t) :
    ∀ s ∈ l, s.remaining_days ≤ t.remaining_days := by
  match l with
  | [] => simp [maxByRemaining] at h
  | x :: xs =>
    simp only [maxByRemaining, Option.some.injEq] at h
    subst h
    intro s hs
    rcases List.mem_cons.mp hs with hsx | hsm
    · rw [hsx]
      exact foldlMax_acc_le xs x
    · exact foldlMax_mem_le xs x s hsm

theorem maxByRemaining_isSome (l : List Candidate) (hne : l ≠ []) :
    ∃ t, maxByRemaining l = some t := by
  match l with
  | [] => exact absurd rfl hne
  | x :: xs => exact ⟨_, rfl⟩

/-- C6: select_target_server is the two-tier greedy policy: when a
candidate exceeds the threshold, a maximal such candidate is returned; when
none does but a candidate exceeds current remaining plus the minimum gain,
a maximal such candidate is returned; otherwise no target.  The three
concrete scenarios of the spec are included: candidates 3, 7, 12 yield the
12-day one; candidates 3, 4 with current 2 and gain 1 yield the 4-day one;
a single 2-day candidate yields none. -/
theorem select_target_server_spec (available : List Candidate)
    (threshold min_gain current : Int) :
    ((∃ s ∈ available, s.remaining_days > threshold) →
      ∃ t, select_target_server available threshold min_gain current = some t ∧
        t ∈ available ∧ t.remaining_days > threshold ∧
        ∀ s ∈ available, s.remaining_days > threshold →
          s.remaining_days ≤ t.remaining_days) ∧
    ((∀ s ∈ available, ¬ s.remaining_days > threshold) →
      (∃ s ∈ available, s.remaining_days > current + min_gain) →
      ∃ t, select_target_server available threshold min_gain current = some t ∧
        t ∈ available ∧ t.remaining_days > current + min_gain ∧
        ∀ s ∈ available, s.remaining_days > current + min_gain →
          s.remaining_days ≤ t.remaining_days) ∧
    ((∀ s ∈ available, ¬ s.remaining_days > threshold ∧
        ¬ s.remaining_days > current + min_gain) →
      select_target_server available threshold min_gain current = none) ∧
    select_target_server
      [⟨"10.0.0.1", 3⟩, ⟨"10.0.0.2", 7⟩, ⟨"10.0.0.3", 12⟩] 5 1 2 =
      some ⟨"10.0.0.3", 12⟩ ∧
    select_target_server [⟨"10.0.0.1", 3⟩, ⟨"10.0.0.2", 4⟩] 5 1 2 =
      some ⟨"10.0.0.2", 4⟩ ∧
    select_target_server [⟨"10.0.0.1", 2⟩] 5 1 2 = none := by
  refine ⟨?_, ?_, ?_, by decide, by decide, by decide⟩
  · rintro ⟨s, hs, hgt⟩
    cases available with
    | nil => simp at hs
    | cons x xs =>
      have hfilter : s ∈ (x :: xs).filter (fun s => s.remaining_days > threshold) := by
        simp only [List.mem_filter]
        exact ⟨hs, by simpa using hgt⟩
      have hfne : (x :: xs).filter (fun s => s.remaining_days > threshold) ≠ [] := by
        intro h
        rw [h] at hfilter
        simp at hfilter
      obtain ⟨t, ht⟩ := maxByRemaining_isSome _ hfne
      refine ⟨t, ?_, ?_, ?_, ?_⟩
      · simp only [select_target_server]
        rw [ht]
      · have := maxByRemaining_mem _ _ ht
        simp only [List.mem_filter] at this
        exact this.1
      · have := maxByRemaining_mem _ _ ht
        simp only [List.mem_filter, decide_eq_true_eq] at this
        exact this.2
      · intro u hu hugt
        exact maxByRemaining_ge _ _ ht u (by
          simp only [List.mem_filter]
          exact ⟨hu, by simpa using hugt⟩)
  · intro hnone
    rintro ⟨s, hs, hgt⟩
    cases available with
    | nil => simp at hs
    | cons x xs =>
      have hfe : (x :: xs).filter (fun s => s.remaining_days > threshold) = [] := by
        rw [List.filter_eq_nil_iff]
        intro u hu
        simpa using hnone u hu
      have hfilter : s ∈ (x :: xs).filter
          (fun s => s.remaining_days > current + min_gain) := by
        simp only [List.mem_filter]
        exact ⟨hs, by simpa using hgt⟩
      have hfne : (x :: xs).filter (fun s => s.remaining_days > current + min_gain) ≠ [] := by
        intro h
        rw [h] at hfilter
        simp at hfilter
      obtain ⟨t, ht⟩ := maxByRemaining_isSome _ hfne
      refine ⟨t, ?_, ?_, ?_, ?_⟩
      · simp only [select_target_server]
        rw [hfe]
        exact ht
      · have := maxByRemaining_mem _ _ ht
        simp only [List.mem_filter] at this
        exact this.1
      · have := maxByRemaining_mem _ _ ht
        simp only [List.mem_filter, decide_eq_true_eq] at this
        exact this.2
      · intro u hu hugt
        exact maxByRemaining_ge _ _ ht u (by
          simp only [List.mem_filter]
          exact ⟨hu, by simpa using hugt⟩)
  · intro hboth
    cases available with
    | nil => rfl
    | cons x xs =>
      have hfe1 : (x :: xs).filter (fun s => s.remaining_days > threshold) = [] := by
        rw [List.filter_eq_nil_iff]
        intro u hu
        simpa using (hboth u hu).1
      have hfe2 : (x :: xs).filter
          (fun s => s.remaining_days > current + min_gain) = [] := by
        rw [List.filter_eq_nil_iff]
        intro u hu
        simpa using (hboth u hu).2
      simp only [select_target_server]
      rw [hfe1, hfe2]
      rfl

/-- C6 witness: the first tier applied to the concrete 3, 7, 12 scenario. -/
theorem select_target_server_spec_witness :
    ∃ t, select_target_server
        [⟨"10.0.0.1", 3⟩, ⟨"10.0.0.2", 7⟩, ⟨"10.0.0.3", 12⟩] 5 1 2 = some t ∧
      t ∈ [⟨"10.0.0.1", 3⟩, ⟨"10.0.0.2", 7⟩, (⟨"10.0.0.3", 12⟩ : Candidate)] ∧
      t.remaining_days > 5 ∧
      ∀ s ∈ [⟨"10.0.0.1", 3⟩, ⟨"10.0.0.2", 7⟩, (⟨"10.0.0.3", 12⟩ : Candidate)],
        s.remaining_days > 5 → s.remaining_days ≤ t.remaining_days := by
  exact (select_target_server_spec
    [⟨"10.0.0.1", 3⟩, ⟨"10.0.0.2", 7⟩, ⟨"10.0.0.3", 12⟩] 5 1 2).1
    ⟨⟨"10.0.0.3", 12⟩, by decide, by decide⟩

/-! The data-transfer failure path of cmd_migrate (agent.py lines 354-390):
lock acquisition (advisory remote lock when remote sync is available,
otherwise a local status write), then the failure handling after
perform_migration returns failure. -/

/-- Scanner.update_server_status (scanner.py lines 202-232) for the status
and heartbeat fields (no extra keyword fields are passed on the migrate
path): locate by the ip field, set status, stamp last_heartbeat, save;
an unknown ip only warns and saves nothing. -/
def scanner_update_server_status (servers : List Server) (ip status now : String) :
    List Server :=
  match servers.find? (fun s => s.ip = some ip) with
  | none => servers
  | some _ =>
    updateFirst (fun s => s.ip = some ip)
      (fun s => { s with status := some status, last_heartbeat := some now }) servers

/-- Outcome of the modelled cmd_migrate slice: the remote registry, the
local registry cache, whether the migration-failed notification was
attempted, and the command's return value. -/
structure MigrateFailureResult where
  remote : List Server
  local_nodes : List Server
  sent_failed_notification : Bool
  success : Bool
  deriving Repr, DecidableEq

/-- cmd_migrate steps 5-6 with perform_migration failing (agent.py lines
354-390): with remote sync available, acquire the advisory lock (aborting
when it cannot be acquired), then on migration failure notify and release
the lock back to idle; without remote sync, mark the target transferring in
the local registry, then on migration failure notify - the local status is
not written back to idle on this path. -/
def cmd_migrate_transfer_failure (github_available : Bool)
    (remote local_nodes : List Server) (target_ip current_ip now : String) :
    MigrateFailureResult :=
  if github_available then
    let acq := acquire_lock remote target_ip current_ip now
    if !acq.2 then
      { remote := acq.1, local_nodes := local_nodes,
        sent_failed_notification := false, success := false }
    else
      { remote := (release_lock acq.1 target_ip "idle").1,
        local_nodes := local_nodes,
        sent_failed_notification := true, success := false }
  else
    { remote := remote,
      local_nodes := scanner_update_server_status local_nodes target_ip "transferring" now,
      sent_failed_notification := true, success := false }

/-- C3 counterexample: with remote sync unavailable, a failed data transfer
leaves the chosen target transferring in the local registry (the failure
path never resets the local status to idle), contradicting the claim that
the target registry state is not left as transferring. -/
theorem migrate_failure_local_stays_transferring :
    (cmd_migrate_transfer_failure false []
        [{ ip := some "10.0.0.9", status := some "idle" }]
        "10.0.0.9" "10.0.0.1" "2026-10-12T00:00:00Z").local_nodes =
      [{ ip := some "10.0.0.9", status := some "transferring",
         last_heartbeat := some "2026-10-12T00:00:00Z" }] ∧
    (cmd_migrate_transfer_failure false []
        [{ ip := some "10.0.0.9", status := some "idle" }]
        "10.0.0.9" "10.0.0.1" "2026-10-12T00:00:00Z").success = false ∧
    some "transferring" ≠ some "idle" := by
  refine ⟨by decide, by decide, by decide⟩

/-- C3 amended: when the data-transfer stage fails, the command sends the
migration-failed notification and returns failure; when remote sync is
available the advisory lock is released, restoring the target's remote
record to idle with the lock fields removed; when remote sync is
unavailable the local registry keeps the transferring status written at
lock time (it is not reset to idle). -/
theorem cmd_migrate_transfer_failure_spec (remote local_nodes : List Server)
    (target_ip current_ip now : String) (t : Server)
    (hremote : remote.find? (matchesId target_ip) = some t)
    (hnotlocked : t.status ≠ some "transferring")
    (tl : Server) (hlocal : local_nodes.find? (fun s => s.ip = some target_ip) = some tl) :
    ((cmd_migrate_transfer_failure true remote local_nodes
        target_ip current_ip now).success = false ∧
      (cmd_migrate_transfer_failure true remote local_nodes
        target_ip current_ip now).sent_failed_notification = true ∧
      (cmd_migrate_transfer_failure true remote local_nodes
        target_ip current_ip now).remote.find? (matchesId target_ip) =
        some { t with status := some "idle",
                      lock_holder := none, lock_time := none }) ∧
    ((cmd_migrate_transfer_failure false remote local_nodes
        target_ip current_ip now).success = false ∧
      (cmd_migrate_transfer_failure false remote local_nodes
        target_ip current_ip now).sent_failed_notification = true ∧
      (cmd_migrate_transfer_failure false remote local_nodes
        target_ip current_ip now).local_nodes.find?
          (fun s => s.ip = some target_ip) =
        some { tl with status := some "transferring",
                       last_heartbeat := some now }) := by
  have hmatch : matchesId target_ip t = true := List.find?_some hremote
  have hacq : acquire_lock remote target_ip current_ip now =
      (updateFirst (matchesId target_ip)
        (fun s => { s with status := some "transferring",
                           lock_holder := some current_ip,
                           lock_time := some now }) remote, true) := by
    simp only [acquire_lock, hremote]
    rw [if_neg hnotlocked]
  have hfind1 : (acquire_lock remote target_ip current_ip now).1.find?
      (matchesId target_ip) =
      some { t with status := some "transferring",
                    lock_holder := some current_ip,
                    lock_time := some now } := by
    rw [hacq]
    exact find?_updateFirst _ _ _ _ (by simpa [matchesId] using hmatch) hremote
  have hlocmatch := List.find?_some hlocal
  refine ⟨⟨?_, ?_, ?_⟩, ⟨?_, ?_, ?_⟩⟩
  · simp [cmd_migrate_transfer_failure, hacq]
  · simp [cmd_migrate_transfer_failure, hacq]
  · simp only [cmd_migrate_transfer_failure, if_pos trivial, hacq]
    simp only [Bool.not_true, Bool.false_eq_true, if_false]
    have hrel : (release_lock (updateFirst (matchesId target_ip)
        (fun s => { s with status := some "transferring",
                           lock_holder := some current_ip,
                           lock_time := some now }) remote) target_ip "idle").1.find?
        (matchesId target_ip) =
        some { t with status := some "idle",
                      lock_holder := none, lock_time := none } := by
      have hfind1' : (updateFirst (matchesId target_ip)
          (fun s => { s with status := some "transferring",
                             lock_holder := some current_ip,
                             lock_time := some now }) remote).find?
          (matchesId target_ip) =
          some { t with status := some "transferring",
                        lock_holder := some current_ip,
                        lock_time := some now } := by
        exact find?_updateFirst _ _ _ _ (by simpa [matchesId] using hmatch) hremote
      simp only [release_lock, hfind1']
      exact find?_updateFirst (matchesId target_ip) _ _
        { t with status := some "transferring",
                 lock_holder := some current_ip, lock_time := some now }
        (by simpa [matchesId] using hmatch) hfind1'
    simpa using hrel
  · simp [cmd_migrate_transfer_failure]
  · simp [cmd_migrate_transfer_failure]
  · simp only [cmd_migrate_transfer_failure, Bool.false_eq_true, if_false]
    simp only [scanner_update_server_status, hlocal]
    exact find?_updateFirst _ _ _ _ (by simpa using hlocmatch) hlocal

/-- C3 witness: both branches at a concrete registry. -/
theorem cmd_migrate_transfer_failure_spec_witness :
    ((cmd_migrate_transfer_failure true
        [{ id := some "10.0.0.9", status := some "idle" }]
        [{ ip := some "10.0.0.9", status := some "idle" }]
        "10.0.0.9" "10.0.0.1" "2026-10-12T00:00:00Z").success = false ∧
      (cmd_migrate_transfer_failure true
        [{ id := some "10.0.0.9", status := some "idle" }]
        [{ ip := some "10.0.0.9", status := some "idle" }]
        "10.0.0.9" "10.0.0.1" "2026-10-12T00:00:00Z").sent_failed_notification = true ∧
      (cmd_migrate_transfer_failure true
        [{ id := some "10.0.0.9", status := some "idle" }]
        [{ ip := some "10.0.0.9", status := some "idle" }]
        "10.0.0.9" "10.0.0.1" "2026-10-12T00:00:00Z").remote.find?
          (matchesId "10.0.0.9") =
        some { id := some "10.0.0.9", status := some "idle",
               lock_holder := none, lock_time := none }) ∧
    ((cmd_migrate_transfer_failure false
        [{ id := some "10.0.0.9", status := some "idle" }]
        [{ ip := some "10.0.0.9", status := some "idle" }]
        "10.0.0.9" "10.0.0.1" "2026-10-12T00:00:00Z").success = false ∧
      (cmd_migrate_transfer_failure false
        [{ id := some "10.0.0.9", status := some "idle" }]
        [{ ip := some "10.0.0.9", status := some "idle" }]
        "10.0.0.9" "10.0.0.1" "2026-10-12T00:00:00Z").sent_failed_notification = true ∧
      (cmd_migrate_transfer_failure false
        [{ id := some "10.0.0.9", status := some "idle" }]
        [{ ip := some "10.0.0.9", status := some "idle" }]
        "10.0.0.9" "10.0.0.1" "2026-10-12T00:00:00Z").local_nodes.find?
          (fun s => s.ip = some "10.0.0.9") =
        some { ip := some "10.0.0.9", status := some "transferring",
               last_heartbeat := some "2026-10-12T00:00:00Z" }) := by
  exact cmd_migrate_transfer_failure_spec
    [{ id := some "10.0.0.9", status := some "idle" }]
    [{ ip := some "10.0.0.9", status := some "idle" }]
    "10.0.0.9" "10.0.0.1" "2026-10-12T00:00:00Z"
    { id := some "10.0.0.9", status := some "idle" } (by decide) (by decide)
    { ip := some "10.0.0.9", status := some "idle" } (by decide)

/-! CloudFlare DNS updater (cloudflare_api.py).  The zone's A records are
the state; the provider API calls that mutate records are traced so that
the idempotence claim can speak about which calls a run performs. -/

/-- A zone A record as read and written by the module: the record name, the
provider record id, and the content (the IP the name resolves to). -/
structure DnsRecord where
  name : String
  id : String
  content : String
  deriving Repr, DecidableEq

/-- The mutating provider calls issued by the module: a POST creating a
record and a PUT replacing a record's content. -/
inductive DnsCall where
  | createCall
  | putCall
  deriving Repr, DecidableEq

/-- CloudFlareAPI.get_dns_record (cloudflare_api.py lines 62-103): the
first A record of the zone named subdomain.domain, or none. -/
def get_dns_record (available : Bool) (zone : List DnsRecord)
    (subdomain domain : String) : Option DnsRecord :=
  if !available then none
  else zone.find? (fun r => r.name = subdomain ++ "." ++ domain)

/-- CloudFlareAPI.create_dns_record (cloudflare_api.py lines 105-150):
POST a new A record (the provider assigns new_id); success unless the
feature is unavailable. -/
def create_dns_record (available : Bool) (zone : List DnsRecord)
    (subdomain domain ip new_id : String) : List DnsRecord × Bool :=
  if !available then (zone, false)
  else (zone ++ [{ name := subdomain ++ "." ++ domain, id := new_id, content := ip }], true)

/-- CloudFlareAPI.update_dns_record (cloudflare_api.py lines 152-213):
look the record up; absent delegates to create; content already equal to
the desired IP is a no-op success; otherwise PUT the new content to the
record's id.  Returns the zone, the success flag, and the mutating calls
performed. -/
def update_dns_record (available : Bool) (zone : List DnsRecord)
    (subdomain domain new_ip new_id : String) :
    List DnsRecord × Bool × List DnsCall :=
  if !available then (zone, false, [])
  else
    match get_dns_record true zone subdomain domain with
    | none =>
      let created := create_dns_record true zone subdomain domain new_ip new_id
      (created.1, created.2, [.createCall])
    | some record =>
      if record.content = new_ip then (zone, true, [])
      else
        (zone.map (fun r => if r.id = record.id then { r with content := new_ip } else r),
          true, [.putCall])

theorem find?_map_content (zone : List DnsRecord) (full rid new_ip : String)
    (r : DnsRecord) (h : zone.find? (fun q => q.name = full) = some r) :
    (zone.map (fun q => if q.id = rid then { q with content := new_ip } else q)).find?
      (fun q => q.name = full) =
      some (if r.id = rid then { r with content := new_ip } else r) := by
  induction zone with
  | nil => simp [List.find?] at h
  | cons x xs ih =>
    by_cases hx : x.name = full
    · rw [List.find?_cons_of_pos _ (by simpa using hx)] at h
      rw [Option.some.injEq] at h
      subst h
      have hname : (if x.id = rid then { x with content := new_ip } else x).name = full := by
        split <;> simpa using hx
      rw [List.map_cons, List.find?_cons_of_pos _ (by simpa using hname)]
    · rw [List.find?_cons_of_neg _ (by simpa using hx)] at h
      have hname : ¬ (if x.id = rid then { x with content := new_ip } else x).name = full := by
        split <;> simpa using hx
      rw [List.map_cons, List.find?_cons_of_neg _ (by simpa using hname)]
      exact ih h

theorem find?_append_nomatch (zone : List DnsRecord) (full : String)
    (r : DnsRecord) (hnone : zone.find? (fun q => q.name = full) = none)
    (hr : r.name = full) :
    (zone ++ [r]).find? (fun q => q.name = full) = some r := by
  induction zone with
  | nil => simp [List.find?, hr]
  | cons x xs ih =>
    by_cases hx : x.name = full
    · rw [List.find?_cons_of_pos _ (by simpa using hx)] at hnone
      exact absurd hnone (by simp)
    · rw [List.find?_cons_of_neg _ (by simpa using hx)] at hnone
      rw [List.cons_append, List.find?_cons_of_neg _ (by simpa using hx)]
      exact ih hnone

/-- After a successful update to new_ip, the first record of that name in
the resulting zone has content new_ip. -/
theorem update_dns_record_content (zone : List DnsRecord)
    (subdomain domain new_ip new_id : String) :
    ((update_dns_record true zone subdomain domain new_ip new_id).1.find?
      (fun q => q.name = subdomain ++ "." ++ domain)).map DnsRecord.content =
      some new_ip := by
  cases hget : zone.find? (fun r => r.name = subdomain ++ "." ++ domain) with
  | none =>
    have hupd : update_dns_record true zone subdomain domain new_ip new_id =
        (zone ++ [{ name := subdomain ++ "." ++ domain, id := new_id,
                    content := new_ip }], true, [.createCall]) := by
      simp [update_dns_record, get_dns_record, create_dns_record, hget]
    rw [hupd]
    rw [find?_append_nomatch zone _ _ hget rfl]
    rfl
  | some record =>
    by_cases heq : record.content = new_ip
    · have hupd : update_dns_record true zone subdomain domain new_ip new_id =
          (zone, true, []) := by
        simp [update_dns_record, get_dns_record, hget, heq]
      rw [hupd]
      rw [hget]
      simp [heq]
    · have hupd : update_dns_record true zone subdomain domain new_ip new_id =
          (zone.map (fun r => if r.id = record.id then { r with content := new_ip } else r),
            true, [.putCall]) := by
        simp [update_dns_record, get_dns_record, hget, heq]
      rw [hupd]
      rw [find?_map_content zone _ record.id new_ip record hget]
      simp

/-- C7: the DNS update is idempotent: two consecutive updates of the same
subdomain to the same IP both succeed, the second run issues no create and
no content-replacing PUT, and a run starting with no record of that name
delegates to create. -/
theorem update_dns_record_idempotent (zone : List DnsRecord)
    (subdomain domain new_ip id1 id2 : String) :
    (update_dns_record true zone subdomain domain new_ip id1).2.1 = true ∧
    (update_dns_record true
      (update_dns_record true zone subdomain domain new_ip id1).1
      subdomain domain new_ip id2).2.1 = true ∧
    (update_dns_record true
      (update_dns_record true zone subdomain domain new_ip id1).1
      subdomain domain new_ip id2).2.2 = [] ∧
    (get_dns_record true zone subdomain domain = none →
      (update_dns_record true zone subdomain domain new_ip id1).2.2 = [.createCall]) := by
  have hcontent := update_dns_record_content zone subdomain domain new_ip id1
  have hsecond : ∀ z : List DnsRecord,
      (z.find? (fun q => q.name = subdomain ++ "." ++ domain)).map DnsRecord.content =
        some new_ip →
      update_dns_record true z subdomain domain new_ip id2 = (z, true, []) := by
    intro z hz
    cases hfz : z.find? (fun q => q.name = subdomain ++ "." ++ domain) with
    | none => rw [hfz] at hz; simp at hz
    | some r =>
      rw [hfz] at hz
      have hzc : r.content = new_ip := by
        simpa using hz
      simp [update_dns_record, get_dns_record, hfz, hzc]
  refine ⟨?_, ?_, ?_, ?_⟩
  · cases hget : zone.find? (fun r => r.name = subdomain ++ "." ++ domain) with
    | none => simp [update_dns_record, get_dns_record, create_dns_record, hget]
    | some record =>
      by_cases heq : record.content = new_ip
      · simp [update_dns_record, get_dns_record, hget, heq]
      · simp [update_dns_record, get_dns_record, hget, heq]
  · rw [hsecond _ hcontent]
  · rw [hsecond _ hcontent]
  · intro hnone
    have hget : zone.find? (fun r => r.name = subdomain ++ "." ++ domain) = none := by
      simpa [get_dns_record] using hnone
    simp [update_dns_record, get_dns_record, hget]

/-- C7 witness: two consecutive updates on an initially empty zone. -/
theorem update_dns_record_idempotent_witness :
    (update_dns_record true [] "a" "example.com" "1.2.3.4" "rid1").2.1 = true ∧
    (update_dns_record true
      (update_dns_record true [] "a" "example.com" "1.2.3.4" "rid1").1
      "a" "example.com" "1.2.3.4" "rid2").2.1 = true ∧
    (update_dns_record true
      (update_dns_record true [] "a" "example.com" "1.2.3.4" "rid1").1
      "a" "example.com" "1.2.3.4" "rid2").2.2 = [] ∧
    (update_dns_record true [] "a" "example.com" "1.2.3.4" "rid1").2.2 =
      [.createCall] := by
  have h := update_dns_record_idempotent [] "a" "example.com" "1.2.3.4" "rid1" "rid2"
  exact ⟨h.1, h.2.1, h.2.2.1, h.2.2.2 (by decide)⟩

/-! SSH password resolution (utils.py get_ssh_password, lines 383-424).
Environment variables are Option String; Python truthiness of a string is
nonemptiness. -/

/-- Python truthiness of an optional string: an unset variable and an empty
string are both falsy. -/
def truthyStr : Option String → Option String
  | some s => if s = "" then none else some s
  | none => none

/-- Python membership test of a character in a string. -/
def strContains (s : String) (c : Char) : Bool :=
  s.toList.any (fun x => x = c)

/-- Python str.split(sep, 1) when sep occurs: the text before the first
occurrence and everything after it; none when sep does not occur. -/
def splitFirstChar (c : Char) : List Char → Option (List Char × List Char)
  | [] => none
  | x :: xs =>
    if x = c then some ([], xs)
    else (splitFirstChar c xs).map (fun p => (x :: p.1, p.2))

/-- Python str.strip of surrounding whitespace. -/
def pyStrip (s : String) : String :=
  String.mk (((s.toList.dropWhile Char.isWhitespace).reverse.dropWhile
    Char.isWhitespace).reverse)

/-- The shared mapping scan of get_ssh_password: over the pipe-separated
entries, for every entry containing a colon, split at the first colon and
return the password of the first entry whose stripped host equals the
stripped target. -/
def lookupPasswordMapping (map_str target : String) : Option String :=
  (splitOnChar '|' map_str).findSome? (fun mapping =>
    match splitFirstChar ':' mapping with
    | none => none
    | some (host, password) =>
      if pyStrip (String.mk host) = pyStrip target then some (String.mk password)
      else none)

/-- get_ssh_password (utils.py lines 383-424): first the per-host map
variable (when set and a target is given), whose first matching entry wins;
then the single password variable: when it contains a pipe and a target is
given it is scanned as a mapping and an unmatched host yields none (no
default fallback), otherwise its plain value is returned; with neither
variable set the result is none. -/
def get_ssh_password (password_map password_env target : Option String) :
    Option String :=
  let step1 : Option String :=
    match truthyStr password_map, truthyStr target with
    | some m, some t => lookupPasswordMapping m t
    | _, _ => none
  match step1 with
  | some p => some p
  | none =>
    match truthyStr password_env with
    | none => none
    | some pe =>
      if strContains pe '|' then
        match truthyStr target with
        | some t => lookupPasswordMapping pe t
        | none => some pe
      else some pe

/-- C8 counterexample: a single password value containing a pipe but no
colon is treated as a mapping (the code tests only for the pipe), so an
unmatched host resolves to no password instead of the plain value the
claim promises for a value that is not in colon-and-pipe mapping syntax. -/
theorem get_ssh_password_pipe_only_counterexample :
    get_ssh_password none (some "a|b") (some "9.9.9.9") = none ∧
    get_ssh_password none (some "a|b") (some "9.9.9.9") ≠ some "a|b" ∧
    strContains "a|b" ':' = false ∧
    strContains "a|b" '|' = true := by
  refine ⟨by decide, by decide, by decide, by decide⟩

/-- C8 amended: resolution precedence is the per-host map first (its first
matching entry wins; a miss falls through), then the single password
variable, which is scanned as a mapping whenever it contains a pipe and a
target is given - an unmatched host (including the case of a value with a
pipe but no colon) then yields no password rather than a default -
otherwise its plain value is returned for every host; with neither variable
yielding a result there is no password.  With map entry 1.2.3.4:secretA
and plain generic password secretB, host 1.2.3.4 resolves to secretA and
host 9.9.9.9 to secretB. -/
theorem get_ssh_password_spec (password_map password_env target : Option String)
    (m t pe p : String)
    (hm : truthyStr password_map = some m)
    (ht : truthyStr target = some t)
    (hpe : truthyStr password_env = some pe) :
    (lookupPasswordMapping m t = some p →
      get_ssh_password password_map password_env target = some p) ∧
    (lookupPasswordMapping m t = none →
      get_ssh_password password_map password_env target =
        get_ssh_password none password_env target) ∧
    (strContains pe '|' = true →
      get_ssh_password none password_env target = lookupPasswordMapping pe t) ∧
    (strContains pe '|' = false →
      get_ssh_password none password_env target = some pe) ∧
    get_ssh_password none none target = none ∧
    get_ssh_password (some "1.2.3.4:secretA") (some "secretB") (some "1.2.3.4") =
      some "secretA" ∧
    get_ssh_password (some "1.2.3.4:secretA") (some "secretB") (some "9.9.9.9") =
      some "secretB" := by
  refine ⟨?_, ?_, ?_, ?_, ?_, by decide, by decide⟩
  · intro hit
    simp only [get_ssh_password]
    rw [hm, ht]
    simp [hit]
  · intro hmiss
    simp only [get_ssh_password]
    rw [hm, ht]
    simp [hmiss, truthyStr]
  · intro hpipe
    simp only [get_ssh_password]
    rw [hpe, ht]
    simp [hpipe, truthyStr]
  · intro hnopipe
    simp only [get_ssh_password]
    rw [hpe]
    simp [hnopipe, truthyStr]
  · simp [get_ssh_password, truthyStr]

/-- C8 witness: the theorem at the concrete spec scenario. -/
theorem get_ssh_password_spec_witness :
    get_ssh_password (some "1.2.3.4:secretA") (some "secretB") (some "1.2.3.4") =
      some "secretA" ∧
    get_ssh_password none (some "secretB") (some "9.9.9.9") = some "secretB" ∧
    get_ssh_password none (some "1.2.3.4:pwA|5.6.7.8:pwB") (some "9.9.9.9") = none ∧
    get_ssh_password none none (some "9.9.9.9") = none := by
  have h := get_ssh_password_spec (some "1.2.3.4:secretA") (some "secretB")
    (some "9.9.9.9") "1.2.3.4:secretA" "9.9.9.9" "secretB" "secretA"
    (by decide) (by decide) (by decide)
  have h2 := get_ssh_password_spec (some "1.2.3.4:secretA")
    (some "1.2.3.4:pwA|5.6.7.8:pwB")
    (some "9.9.9.9") "1.2.3.4:secretA" "9.9.9.9" "1.2.3.4:pwA|5.6.7.8:pwB" "pwA"
    (by decide) (by decide) (by decide)
  refine ⟨h.2.2.2.2.2.1, h.2.2.2.1 (by decide), ?_, h.2.2.2.2.1⟩
  rw [h2.2.2.1 (by decide)]
  decide

/-! Notifier (notification.py ResendNotifier). -/

/-- The notification section of the settings. -/
structure NotificationConfig where
  enabled : Bool
  resend_api_key : String
  from_email : String
  to_emails : List String
  deriving Repr, DecidableEq

/-- The notifier state after construction. -/
structure ResendNotifier where
  enabled : Bool
  api_key : String
  from_email : String
  to_emails : List String
  deriving Repr, DecidableEq

/-- ResendNotifier constructor (notification.py lines 15-40): copies the
config and disables the feature when it is enabled without an API key or
without recipients; the sender address is never checked. -/
def mkResendNotifier (cfg : NotificationConfig) : ResendNotifier :=
  let enabled1 := if cfg.enabled && cfg.resend_api_key == "" then false else cfg.enabled
  let enabled2 := if enabled1 && cfg.to_emails.isEmpty then false else enabled1
  { enabled := enabled2, api_key := cfg.resend_api_key,
    from_email := cfg.from_email, to_emails := cfg.to_emails }

/-- ResendNotifier.is_available (notification.py lines 42-44): enabled and
a nonempty API key and a nonempty recipient list. -/
def is_available (n : ResendNotifier) : Bool :=
  n.enabled && !(n.api_key == "") && !n.to_emails.isEmpty

/-- ResendNotifier.send_email (notification.py lines 46-95): skipped with
result false when unavailable; otherwise the provider's outcome (success
of the POST), passed in as provider_ok. -/
def send_email (n : ResendNotifier) (provider_ok : Bool) : Bool :=
  if is_available n then provider_ok else false

/-- C9 counterexample: a config with the feature enabled, an API key and a
recipient but an empty sender address still reports available - the sender
address is not one of the checked prerequisites. -/
theorem is_available_no_sender_check_counterexample :
    is_available (mkResendNotifier
      { enabled := true, resend_api_key := "key",
        from_email := "", to_emails := ["ops@example.com"] }) = true ∧
    ({ enabled := true, resend_api_key := "key", from_email := "",
       to_emails := ["ops@example.com"] } : NotificationConfig).from_email = "" := by
  refine ⟨by decide, by decide⟩

/-- C9 amended: the notifier reports itself available exactly when three
prerequisites hold - the feature is enabled, an API key is present and the
recipient list is nonempty; the sender address is not checked.  When
unavailable, every send is skipped and reported as failure. -/
theorem is_available_spec (cfg : NotificationConfig) :
    (is_available (mkResendNotifier cfg) =
      (cfg.enabled && !(cfg.resend_api_key == "") && !cfg.to_emails.isEmpty)) ∧
    (is_available (mkResendNotifier cfg) = false →
      ∀ provider_ok : Bool, send_email (mkResendNotifier cfg) provider_ok = false) := by
  constructor
  · simp only [mkResendNotifier, is_available]
    by_cases h1 : cfg.resend_api_key == "" <;>
      by_cases h2 : cfg.to_emails.isEmpty <;>
        cases cfg.enabled <;> simp [h1, h2]
  · intro h provider_ok
    simp [send_email, h]

/-- C9 witness: the theorem at a config with no recipients. -/
theorem is_available_spec_witness :
    is_available (mkResendNotifier
      { enabled := true, resend_api_key := "key",
        from_email := "hc@example.com", to_emails := [] }) = false ∧
    send_email (mkResendNotifier
      { enabled := true, resend_api_key := "key",
        from_email := "hc@example.com", to_emails := [] }) true = false := by
  have h := is_available_spec
    { enabled := true, resend_api_key := "key",
      from_email := "hc@example.com", to_emails := [] }
  refine ⟨by decide, h.2 (by decide) true⟩

/-- ResendNotifier.notify_lifecycle_warning (notification.py lines
310-368): the lease percentage is computed on the first line, before any
availability check and with no guard on the divisor, so a zero total_days
raises ZeroDivisionError (modelled none) whatever the notifier state;
otherwise the warning tier is chosen by remaining days and the rendered
mail is handed to send_email. -/
def notify_lifecycle_warning (n : ResendNotifier) (server_ip : String)
    (remaining_days total_days : Int) (domain : Option String)
    (provider_ok : Bool) : Option Bool :=
  if total_days = 0 then none
  else
    let _percentage : ℚ := (remaining_days : ℚ) / (total_days : ℚ) * 100
    let warning_level : String :=
      if remaining_days ≤ 2 then "urgent"
      else if remaining_days ≤ 5 then "warning"
      else "notice"
    let _domain_row : Option String := domain
    let _subject : String :=
      warning_level ++ " [Hermit Crab] " ++ toString remaining_days ++ " - " ++ server_ip
    some (send_email n provider_ok)

/-- C10: notify_lifecycle_warning faults exactly when total_days is zero,
independent of the notifier's availability; under the precondition
total_days different from zero it is total and returns the boolean
send_email outcome. -/
theorem notify_lifecycle_warning_division_guard (n : ResendNotifier)
    (server_ip : String) (remaining_days total_days : Int)
    (domain : Option String) (provider_ok : Bool) :
    (notify_lifecycle_warning n server_ip remaining_days total_days
        domain provider_ok = none ↔ total_days = 0) ∧
    (total_days ≠ 0 →
      notify_lifecycle_warning n server_ip remaining_days total_days
        domain provider_ok = some (send_email n provider_ok)) := by
  constructor
  · unfold notify_lifecycle_warning
    split
    · simp_all
    · simp_all
  · intro h
    unfold notify_lifecycle_warning
    rw [if_neg h]

/-- C10 witness: a nonzero lease and a zero lease at a concrete notifier. -/
theorem notify_lifecycle_warning_division_guard_witness :
    notify_lifecycle_warning (mkResendNotifier
      { enabled := false, resend_api_key := "", from_email := "",
        to_emails := [] }) "10.0.0.1" 4 15 none true =
      some (send_email (mkResendNotifier
        { enabled := false, resend_api_key := "", from_email := "",
          to_emails := [] }) true) ∧
    notify_lifecycle_warning (mkResendNotifier
      { enabled := false, resend_api_key := "", from_email := "",
        to_emails := [] }) "10.0.0.1" 4 0 none true = none := by
  have h := notify_lifecycle_warning_division_guard (mkResendNotifier
    { enabled := false, resend_api_key := "", from_email := "",
      to_emails := [] }) "10.0.0.1" 4 15 none true
  have h0 := notify_lifecycle_warning_division_guard (mkResendNotifier
    { enabled := false, resend_api_key := "", from_email := "",
      to_emails := [] }) "10.0.0.1" 4 0 none true
  exact ⟨h.2 (by norm_num), h0.1.mpr rfl⟩

/-! The update-lifecycle command (agent.py cmd_update_lifecycle, lines
86-147). -/

/-- Outcome of a Python call that may raise AttributeError. -/
inductive PyOutcome (α : Type) where
  | ok (value : α)
  | attrErr (msg : String)
  deriving Repr, DecidableEq

/-- cmd_update_lifecycle (agent.py lines 86-147) over the registry visible
after the optional remote refresh: look this node's record up by its
discovered public IP (absent means failure, ok false); decode the optional
predecessor lifecycle payload, base64 preferred over raw JSON, each failure
degrading to no history; then call self.monitor.update_lifecycle_for_migration
- a method the Monitor class does not define anywhere in the repository, so
the call raises AttributeError.  The external base64 and JSON decoders are
parameters of the embedding. -/
def cmd_update_lifecycle {α : Type} (servers : List Server) (current_ip : String)
    (b64decode : String → Option String) (jsonParse : String → Option α)
    (old_lifecycle_base64 old_lifecycle_json : Option String) : PyOutcome Bool :=
  match servers.find? (fun s => s.ip = some current_ip) with
  | none => .ok false
  | some _ =>
    let _old_lifecycle : Option α :=
      match truthyStr old_lifecycle_base64 with
      | some b =>
        match b64decode b with
        | some decoded => jsonParse decoded
        | none => none
      | none =>
        match truthyStr old_lifecycle_json with
        | some j => jsonParse j
        | none => none
    .attrErr "Monitor object has no attribute update_lifecycle_for_migration"

/-- C2: whenever the registry contains a record for this node's IP - the
very scenario in which the claim promises success with carried-forward
history - cmd_update_lifecycle raises AttributeError for every payload and
every decoder, because Monitor.update_lifecycle_for_migration does not
exist; the command therefore never completes successfully. -/
theorem cmd_update_lifecycle_missing_method {α : Type} (servers : List Server)
    (current_ip : String) (b64decode : String → Option String)
    (jsonParse : String → Option α)
    (old_lifecycle_base64 old_lifecycle_json : Option String) (s : Server)
    (hfind : servers.find? (fun t => t.ip = some current_ip) = some s) :
    cmd_update_lifecycle servers current_ip b64decode jsonParse
        old_lifecycle_base64 old_lifecycle_json =
      .attrErr "Monitor object has no attribute update_lifecycle_for_migration" := by
  simp [cmd_update_lifecycle, hfind]

/-- C2 witness: a registry containing this node's IP and a decodable
payload. -/
theorem cmd_update_lifecycle_missing_method_witness :
    cmd_update_lifecycle [{ ip := some "1.2.3.4", status := some "active" }]
        "1.2.3.4" (fun s => some s) (fun _ => some ())
        (some "payload") none =
      .attrErr "Monitor object has no attribute update_lifecycle_for_migration" := by
  exact cmd_update_lifecycle_missing_method
    [{ ip := some "1.2.3.4", status := some "active" }] "1.2.3.4"
    (fun s => some s) (fun _ => some ()) (some "payload") none
    { ip := some "1.2.3.4", status := some "active" } (by decide)

end HermitCrab
